import Mathlib

/-!
Verification of the secure DevOps pipeline controller
(src/8t0b_develop_a_secur.ts) against its natural-language specification.

The development shallowly embeds the TypeScript source: the HMAC-SHA256
token check of runPipeline (lines 44-61), the sequential step execution of
executePipelineSteps (lines 69-74), and the child-process handling of
executeCommand (lines 76-95). Machine words are Nat with explicit masking
by 2^32 - 1; external command behaviour is a parameter (a function from a
command and its environment to an outcome); the HTTP response is a
status/body pair. HMAC-SHA256 itself is the standard algorithm invoked by
the source through crypto.createHmac, implemented here executably so that
theorems can evaluate it on concrete inputs.
-/

set_option maxRecDepth 100000

namespace Pipeline

/-! ## SHA-256 (FIPS 180-4), executable on Nat

The source computes crypto.createHmac("sha256", key).update(msg).digest("hex").
Bytes are Nat values below 256; 32-bit words are Nat values masked with
4294967295. -/

/-- UTF-8 encoding of one character, as the Node crypto update("utf8") default. -/
def charUtf8 (c : Char) : List Nat :=
  let n := c.toNat
  if n < 128 then [n]
  else if n < 2048 then
    [192 ||| (n >>> 6), 128 ||| (n &&& 63)]
  else if n < 65536 then
    [224 ||| (n >>> 12), 128 ||| ((n >>> 6) &&& 63), 128 ||| (n &&& 63)]
  else
    [240 ||| (n >>> 18), 128 ||| ((n >>> 12) &&& 63),
     128 ||| ((n >>> 6) &&& 63), 128 ||| (n &&& 63)]

/-- UTF-8 bytes of a string. -/
def utf8Bytes (s : String) : List Nat :=
  s.data.foldr (fun c acc => charUtf8 c ++ acc) []

/-- Right rotation of a 32-bit word. -/
def rotr32 (n x : Nat) : Nat :=
  ((x >>> n) ||| (x <<< (32 - n))) &&& 4294967295

def smallSigma0 (x : Nat) : Nat := (rotr32 7 x) ^^^ (rotr32 18 x) ^^^ (x >>> 3)

def smallSigma1 (x : Nat) : Nat := (rotr32 17 x) ^^^ (rotr32 19 x) ^^^ (x >>> 10)

def bigSigma0 (x : Nat) : Nat := (rotr32 2 x) ^^^ (rotr32 13 x) ^^^ (rotr32 22 x)

def bigSigma1 (x : Nat) : Nat := (rotr32 6 x) ^^^ (rotr32 11 x) ^^^ (rotr32 25 x)

def chWord (x y z : Nat) : Nat := (x &&& y) ^^^ ((x ^^^ 4294967295) &&& z)

def majWord (x y z : Nat) : Nat := (x &&& y) ^^^ (x &&& z) ^^^ (y &&& z)

/-- The 64 SHA-256 round constants. -/
def sha256K : List Nat :=
  [1116352408, 1899447441, 3049323471, 3921009573, 961987163,
   1508970993, 2453635748, 2870763221, 3624381080, 310598401,
   607225278, 1426881987, 1925078388, 2162078206, 2614888103,
   3248222580, 3835390401, 4022224774, 264347078, 604807628,
   770255983, 1249150122, 1555081692, 1996064986, 2554220882,
   2821834349, 2952996808, 3210313671, 3336571891, 3584528711,
   113926993, 338241895, 666307205, 773529912, 1294757372,
   1396182291, 1695183700, 1986661051, 2177026350, 2456956037,
   2730485921, 2820302411, 3259730800, 3345764771, 3516065817,
   3600352804, 4094571909, 275423344, 430227734, 506948616,
   659060556, 883997877, 958139571, 1322822218, 1537002063,
   1747873779, 1955562222, 2024104815, 2227730452, 2361852424,
   2428436474, 2756734187, 3204031479, 3329325298]

/-- Initial SHA-256 hash state. -/
def sha256H0 : List Nat :=
  [1779033703, 3144134277, 1013904242, 2773480762,
   1359893119, 2600822924, 528734635, 1541459225]

/-- Big-endian 8-byte encoding of the message bit length. -/
def be64 (n : Nat) : List Nat :=
  [(n >>> 56) &&& 255, (n >>> 48) &&& 255, (n >>> 40) &&& 255,
   (n >>> 32) &&& 255, (n >>> 24) &&& 255, (n >>> 16) &&& 255,
   (n >>> 8) &&& 255, n &&& 255]

/-- SHA-256 padding: a 0x80 byte, zeros to 56 mod 64, then the bit length. -/
def padMessage (msg : List Nat) : List Nat :=
  let len := msg.length
  let padZeros := (64 - ((len + 9) % 64)) % 64
  msg ++ [128] ++ List.replicate padZeros 0 ++ be64 (len * 8)

/-- Split into 64-byte blocks, given the number of blocks as fuel. -/
def blocksOf : Nat → List Nat → List (List Nat)
  | 0, _ => []
  | n + 1, l => l.take 64 :: blocksOf n (l.drop 64)

def toBlocks (l : List Nat) : List (List Nat) := blocksOf (l.length / 64) l

/-- Pack big-endian bytes into 32-bit words. -/
def bytesToWords : List Nat → List Nat
  | a :: b :: c :: d :: rest =>
      ((a <<< 24) ||| (b <<< 16) ||| (c <<< 8) ||| d) :: bytesToWords rest
  | _ => []

/-- Extend the message schedule; the accumulator keeps the most recent word
first, so the indices 1, 6, 14, 15 are w(i-2), w(i-7), w(i-15), w(i-16). -/
def extendLoop : Nat → List Nat → List Nat
  | 0, acc => acc
  | n + 1, acc =>
      let nw := (smallSigma1 (acc.getD 1 0) + acc.getD 6 0 +
                 smallSigma0 (acc.getD 14 0) + acc.getD 15 0) &&& 4294967295
      extendLoop n (nw :: acc)

/-- The 64-word message schedule of one block. -/
def scheduleW (block : List Nat) : List Nat :=
  (extendLoop 48 (bytesToWords block).reverse).reverse

/-- One SHA-256 round on the eight-word working state. -/
def roundFn (kw : Nat × Nat) (st : List Nat) : List Nat :=
  match st with
  | [a, b, c, d, e, f, g, h] =>
      let t1 := (h + bigSigma1 e + chWord e f g + kw.1 + kw.2) &&& 4294967295
      let t2 := (bigSigma0 a + majWord a b c) &&& 4294967295
      [(t1 + t2) &&& 4294967295, a, b, c, (d + t1) &&& 4294967295, e, f, g]
  | other => other

/-- Compress one 64-byte block into the running hash state. -/
def compress (hs block : List Nat) : List Nat :=
  let st := (sha256K.zip (scheduleW block)).foldl (fun s kw => roundFn kw s) hs
  (hs.zip st).map (fun p => (p.1 + p.2) &&& 4294967295)

/-- SHA-256 of a byte list, as eight 32-bit words. -/
def sha256Words (msg : List Nat) : List Nat :=
  (toBlocks (padMessage msg)).foldl compress sha256H0

/-- Big-endian bytes of one 32-bit word. -/
def wordBE (n : Nat) : List Nat :=
  [(n >>> 24) &&& 255, (n >>> 16) &&& 255, (n >>> 8) &&& 255, n &&& 255]

/-- SHA-256 digest as 32 bytes. -/
def sha256Bytes (msg : List Nat) : List Nat :=
  (sha256Words msg).foldr (fun w acc => wordBE w ++ acc) []

/-! ## HMAC-SHA256 and hex digests (RFC 2104, as Node crypto.createHmac) -/

/-- HMAC-SHA256 over byte lists. -/
def hmacSha256 (key msg : List Nat) : List Nat :=
  let k0 := if 64 < key.length then sha256Bytes key else key
  let kp := k0 ++ List.replicate (64 - k0.length) 0
  sha256Bytes ((kp.map (fun b => b ^^^ 92)) ++
    sha256Bytes ((kp.map (fun b => b ^^^ 54)) ++ msg))

/-- Lower-case hex character of a value below 16. -/
def hexChar (n : Nat) : Char :=
  if n < 10 then Char.ofNat (48 + n) else Char.ofNat (87 + n)

/-- Lower-case hex string of a byte list, as digest("hex"). -/
def bytesToHex (bs : List Nat) : String :=
  ⟨bs.foldr (fun b acc => hexChar (b >>> 4) :: hexChar (b &&& 15) :: acc) []⟩

/-- The token the source computes at line 50:
crypto.createHmac("sha256", key).update(msg).digest("hex"). -/
def hmacSha256Hex (key msg : String) : String :=
  bytesToHex (hmacSha256 (utf8Bytes key) (utf8Bytes msg))

/-! ## The controller embedding

SecureDevOpsPipelineController, src/8t0b_develop_a_secur.ts lines 22-96.
External command behaviour is a parameter: a function from the command
string and the environment option passed to exec to the child outcome. -/

deriving instance DecidableEq for Except

/-- One pipeline step (IPipelineStep, lines 16-20); the environment map is
an association list. -/
structure PipelineStep where
  name : String
  command : String
  environmentVariables : List (String × String)
  deriving DecidableEq

/-- Outcome of one spawned command: the exit event with its code (line 87),
or a fault whose rejection value interpolates to the given string (for
example a synchronous throw out of exec, which rejects the surrounding
promise of executeCommand). -/
inductive CmdOutcome where
  | exited (code : Nat)
  | fault (err : String)
  deriving DecidableEq

/-- Observable record of one executed step: the name logged at line 71
together with the command and the env option passed to exec at line 77. -/
structure SpawnRecord where
  name : String
  command : String
  env : List (String × String)
  deriving DecidableEq

/-- executeCommand (lines 76-95), with the spawn resolved to one exec call
as section 9 of the specification directs for the self-referential
childProcess binding. Resolves on exit code 0; otherwise rejects with the
interpolation of new Error("Command failed with code " + code); a fault
rejects with its own interpolated message. -/
def executeCommand (world : String → List (String × String) → CmdOutcome)
    (command : String) (environmentVariables : List (String × String)) :
    Except String Unit :=
  match world command environmentVariables with
  | .exited 0 => .ok ()
  | .exited c => .error ("Error: Command failed with code " ++ toString c)
  | .fault e => .error e

/-- executePipelineSteps (lines 69-74): run the steps in insertion order,
awaiting each executeCommand; the first rejection propagates and no later
step is started. Also returns the trace of spawned steps, one record per
step that was logged and handed to exec. -/
def executePipelineSteps (world : String → List (String × String) → CmdOutcome) :
    List PipelineStep → List SpawnRecord × Except String Unit
  | [] => ([], Except.ok ())
  | step :: rest =>
      match executeCommand world step.command step.environmentVariables with
      | .ok _ =>
          let r := executePipelineSteps world rest
          (⟨step.name, step.command, step.environmentVariables⟩ :: r.1, r.2)
      | .error e =>
          ([⟨step.name, step.command, step.environmentVariables⟩], Except.error e)

/-- An HTTP response as the handler produces it: a status and a body. -/
structure HttpResponse where
  status : Nat
  body : String
  deriving DecidableEq

/-- The POST /pipeline handler (lines 44-61), generic in the keyed-digest
function so that independence from it is statable: reject a missing or
empty trigger with 401; compute the hex digest of the trigger keyed by
config.pipelineName; reject with 401 unless it equals the TRIGGER_TOKEN
environment variable (absent compares unequal, as a JS string never equals
undefined); otherwise run the steps and answer 200 on resolution or 500
with the interpolated error on rejection. -/
def handleTriggerGen (hmac : String → String → String)
    (world : String → List (String × String) → CmdOutcome)
    (pipelineName : String) (envTriggerToken : Option String)
    (steps : List PipelineStep) (trigger : Option String) :
    HttpResponse × List SpawnRecord :=
  match trigger with
  | none => (⟨401, "Unauthorized"⟩, [])
  | some t =>
      if t = "" then (⟨401, "Unauthorized"⟩, [])
      else
        let triggerToken := hmac pipelineName t
        if envTriggerToken = some triggerToken then
          match executePipelineSteps world steps with
          | (tr, Except.ok _) => (⟨200, "Pipeline executed successfully"⟩, tr)
          | (tr, Except.error e) =>
              (⟨500, "Error executing pipeline: " ++ e⟩, tr)
        else (⟨401, "Unauthorized"⟩, [])

/-- The handler with the digest the source uses at line 50. -/
def handleTrigger (world : String → List (String × String) → CmdOutcome)
    (pipelineName : String) (envTriggerToken : Option String)
    (steps : List PipelineStep) (trigger : Option String) :
    HttpResponse × List SpawnRecord :=
  handleTriggerGen hmacSha256Hex world pipelineName envTriggerToken steps trigger

/-- The authorization decision of lines 50-51 in the four-argument
signature the specification gives TriggerAuthenticator.verify. The source
keys the HMAC with config.pipelineName and never consults a separately
provisioned secret, so the secret argument is unused: true iff the
presented token equals the hex HMAC-SHA256 keyed by the pipeline name over
the candidate trigger. -/
def verify (pipelineName secret candidateTrigger presentedToken : String) : Bool :=
  hmacSha256Hex pipelineName candidateTrigger == presentedToken

/-- The env field of the options object the source passes to exec at
line 77: exactly the step environment map. Under the Node child_process
API a provided env is the entire child environment. -/
def execEnvOption (environmentVariables : List (String × String)) :
    List (String × String) := environmentVariables

/-- Modelled from the spec: the child environment sections 3 and 4.2 of the
specification prescribe, the step map merged over the baseline with the
step value winning on key collision. Stated only to be compared with
execEnvOption; no such merge exists in the source. -/
def specMergedEnv (baseEnv stepEnv : List (String × String)) :
    List (String × String) :=
  (baseEnv.filter (fun kv => (stepEnv.lookup kv.1).isNone)) ++ stepEnv

/-! ## Substring helpers for response bodies -/

/-- Whether the second list is an initial segment of the first. -/
def startsWithL : List Char → List Char → Bool
  | _, [] => true
  | [], _ :: _ => false
  | a :: as, b :: bs => a == b && startsWithL as bs

/-- Whether the second list occurs contiguously inside the first. -/
def hasSubL : List Char → List Char → Bool
  | [], needle => startsWithL [] needle
  | hay@(_ :: t), needle => startsWithL hay needle || hasSubL t needle

/-- Whether the second string occurs inside the first. -/
def strContains (hay needle : String) : Bool :=
  hasSubL hay.data needle.data

end Pipeline


namespace Pipeline

/-! ## Sanity anchors: the embedded primitives against published vectors -/

example : bytesToHex (sha256Bytes (utf8Bytes "abc")) =
    "ba7816bf8f01cfea414140de5dae2223b00361a396177a9cb410ff61f20015ad" := by
  decide

example : bytesToHex (sha256Bytes []) =
    "e3b0c44298fc1c149afbf4c8996fb92427ae41e4649b934ca495991b7852b855" := by
  decide

example : hmacSha256Hex "p" "t" =
    "6659310a4e9aee98f162aa06b03c0fa83303945f099363c8f27a98a563cad49e" := by
  decide

/-! ## Shared lemmas about the handler and the executor -/

/-- An initial segment test holds on any list against itself. -/
theorem startsWithL_self (l : List Char) : startsWithL l l = true := by
  induction l with
  | nil => rfl
  | cons a as ih => simp [startsWithL, ih]

/-- A list occurs inside anything that ends with it. -/
theorem hasSubL_append (a b : List Char) : hasSubL (a ++ b) b = true := by
  induction a with
  | nil =>
      cases b with
      | nil => rfl
      | cons x t => simp [hasSubL, startsWithL_self]
  | cons x xs ih => simp [hasSubL, ih]

/-- A string contains any string it ends with. -/
theorem strContains_append (s t : String) : strContains (s ++ t) t = true := by
  cases s with
  | mk ds =>
      cases t with
      | mk dt => exact hasSubL_append ds dt

/-- A string of the form s ++ (t ++ u) contains u. -/
theorem strContains_append_left (s t u : String) :
    strContains (s ++ (t ++ u)) u = true := by
  cases s with
  | mk ds =>
      cases t with
      | mk dt =>
          cases u with
          | mk du =>
              show hasSubL (ds ++ (dt ++ du)) du = true
              rw [← List.append_assoc]
              exact hasSubL_append (ds ++ dt) du

/-- When the trigger is nonempty and the TRIGGER_TOKEN variable holds the
digest the source computes, the handler runs the steps and maps a resolved
run to 200. -/
theorem handleTrigger_auth_ok
    (world : String → List (String × String) → CmdOutcome)
    (pipelineName t : String) (steps : List PipelineStep)
    (tr : List SpawnRecord) (ht : t ≠ "")
    (hr : executePipelineSteps world steps = (tr, Except.ok ())) :
    handleTrigger world pipelineName (some (hmacSha256Hex pipelineName t))
      steps (some t) =
      (⟨200, "Pipeline executed successfully"⟩, tr) := by
  simp [handleTrigger, handleTriggerGen, ht, hr]

/-- As handleTrigger_auth_ok, with a rejected run mapped to 500 and the
interpolated rejection in the body. -/
theorem handleTrigger_auth_error
    (world : String → List (String × String) → CmdOutcome)
    (pipelineName t : String) (steps : List PipelineStep)
    (tr : List SpawnRecord) (e : String) (ht : t ≠ "")
    (hr : executePipelineSteps world steps = (tr, Except.error e)) :
    handleTrigger world pipelineName (some (hmacSha256Hex pipelineName t))
      steps (some t) =
      (⟨500, "Error executing pipeline: " ++ e⟩, tr) := by
  simp [handleTrigger, handleTriggerGen, ht, hr]

/-- When the TRIGGER_TOKEN variable does not hold the digest the source
computes (in particular when it is unset), the handler answers 401 and
spawns nothing. -/
theorem handleTrigger_unauthorized
    (world : String → List (String × String) → CmdOutcome)
    (pipelineName t : String) (envTriggerToken : Option String)
    (steps : List PipelineStep) (ht : t ≠ "")
    (htok : envTriggerToken ≠ some (hmacSha256Hex pipelineName t)) :
    handleTrigger world pipelineName envTriggerToken steps (some t) =
      (⟨401, "Unauthorized"⟩, []) := by
  simp [handleTrigger, handleTriggerGen, ht, htok]

/-- A run in which every configured command exits 0 resolves and spawns one
record per step, in insertion order, each carrying its own step data. -/
theorem executePipelineSteps_all_ok
    (world : String → List (String × String) → CmdOutcome) :
    ∀ steps : List PipelineStep,
      (∀ s ∈ steps, world s.command s.environmentVariables = CmdOutcome.exited 0) →
      executePipelineSteps world steps =
        (steps.map (fun s => ⟨s.name, s.command, s.environmentVariables⟩),
         Except.ok ()) := by
  intro steps
  induction steps with
  | nil => intro _; rfl
  | cons s rest ih =>
      intro h
      have hs : world s.command s.environmentVariables = CmdOutcome.exited 0 :=
        h s (List.mem_cons_self s rest)
      have hr := ih (fun x hx => h x (List.mem_cons_of_mem s hx))
      simp [executePipelineSteps, executeCommand, hs, hr]

/-! ## The claims -/

/-- C1, counterexample. The claim says verify(name, s, t, p) is true
whenever p is the HMAC-SHA256 of t keyed by the secret s; at name a,
secret b, trigger x and exactly that token, the source answers false,
because line 50 keys the digest with config.pipelineName and never uses a
separate secret. -/
theorem c1_counterexample :
    verify "a" "b" "x" (hmacSha256Hex "b" "x") = false := by
  decide

/-- C1 (amended): the secret argument is not consulted; for every pipeline
name, secret s, trigger t and presented token p, verify(name, s, t, p) is
true exactly when p equals the hex HMAC-SHA256 keyed by the pipeline name
over t. Hence verify(name, s, t, hexHMAC(name, t)) is true, and any
change to the presented token, a single-bit mutation included, makes it
false. -/
theorem c1_verify_iff
    (pipelineName secret candidateTrigger presentedToken : String) :
    verify pipelineName secret candidateTrigger presentedToken = true ↔
      presentedToken = hmacSha256Hex pipelineName candidateTrigger := by
  constructor
  · intro h
    exact (beq_iff_eq.mp h).symm
  · intro h
    exact beq_iff_eq.mpr h.symm

/-- C2: the source has no executor state, lock, or ExecutionInProgress
error at all — every response of the POST /pipeline handler has status
401, 200 or 500, so no request is ever rejected on account of a run
already in flight; an authorized request always proceeds to execution. -/
theorem c2_no_execution_in_progress_outcome
    (world : String → List (String × String) → CmdOutcome)
    (pipelineName : String) (envTriggerToken : Option String)
    (steps : List PipelineStep) (trigger : Option String) :
    (handleTrigger world pipelineName envTriggerToken steps trigger).1.status = 401 ∨
    (handleTrigger world pipelineName envTriggerToken steps trigger).1.status = 200 ∨
    (handleTrigger world pipelineName envTriggerToken steps trigger).1.status = 500 := by
  cases trigger with
  | none => exact Or.inl rfl
  | some t =>
      by_cases h1 : t = ""
      · simp [handleTrigger, handleTriggerGen, h1]
      · by_cases h2 : envTriggerToken = some (hmacSha256Hex pipelineName t)
        · rcases hr : executePipelineSteps world steps with ⟨tr, r⟩
          cases r with
          | ok u => simp [handleTrigger, handleTriggerGen, h1, h2, hr]
          | error e => simp [handleTrigger, handleTriggerGen, h1, h2, hr]
        · simp [handleTrigger, handleTriggerGen, h1, h2]

/-- C3: with steps A, B, C where A exits 0 and B exits a nonzero code, the
run stops at B — the spawn trace is exactly the record of A then the
record of B, C is never spawned, the run rejects, and the rejection
carries the code of B. -/
theorem c3_stops_at_failed_step
    (world : String → List (String × String) → CmdOutcome)
    (A B C : PipelineStep) (cb : Nat)
    (hA : world A.command A.environmentVariables = CmdOutcome.exited 0)
    (hB : world B.command B.environmentVariables = CmdOutcome.exited cb)
    (hcb : cb ≠ 0) :
    executePipelineSteps world [A, B, C] =
      ([⟨A.name, A.command, A.environmentVariables⟩,
        ⟨B.name, B.command, B.environmentVariables⟩],
       Except.error ("Error: Command failed with code " ++ toString cb)) := by
  cases cb with
  | zero => exact absurd rfl hcb
  | succ n => simp [executePipelineSteps, executeCommand, hA, hB]

/-- C3, witness at the concrete steps A, B, C with B exiting 1. -/
theorem c3_stops_at_failed_step_witness :
    executePipelineSteps
      (fun c _ => if c = "b" then CmdOutcome.exited 1 else CmdOutcome.exited 0)
      [⟨"A", "a", []⟩, ⟨"B", "b", []⟩, ⟨"C", "c", []⟩] =
      ([⟨"A", "a", []⟩, ⟨"B", "b", []⟩],
       Except.error "Error: Command failed with code 1") :=
  c3_stops_at_failed_step
    (fun c _ => if c = "b" then CmdOutcome.exited 1 else CmdOutcome.exited 0)
    ⟨"A", "a", []⟩ ⟨"B", "b", []⟩ ⟨"C", "c", []⟩ 1
    (by decide) (by decide) (by decide)

/-- An authorized request always proceeds to execution: the response status
is 200 or 500 and the returned trace is the trace of the run itself. -/
theorem handleTrigger_authorized_shape
    (world : String → List (String × String) → CmdOutcome)
    (pipelineName t : String) (steps : List PipelineStep) (ht : t ≠ "") :
    ((handleTrigger world pipelineName (some (hmacSha256Hex pipelineName t))
        steps (some t)).1.status = 200 ∨
     (handleTrigger world pipelineName (some (hmacSha256Hex pipelineName t))
        steps (some t)).1.status = 500) ∧
    (handleTrigger world pipelineName (some (hmacSha256Hex pipelineName t))
        steps (some t)).2 = (executePipelineSteps world steps).1 := by
  rcases hr : executePipelineSteps world steps with ⟨tr, r⟩
  cases r with
  | ok u =>
      cases u
      rw [handleTrigger_auth_ok world pipelineName t steps tr ht hr]
      exact ⟨Or.inl rfl, rfl⟩
  | error e =>
      rw [handleTrigger_auth_error world pipelineName t steps tr e ht hr]
      exact ⟨Or.inr rfl, rfl⟩

/-- C4: the source keeps no executor state from one request to the next, so
after a first authorized run terminates with any outcome — every step
exiting 0, a step exiting nonzero, or a fault mid-step — a subsequent
authorized run is accepted: it answers 200 or 500, never a rejection, its
trace is that of its own fresh execution, and the first run likewise
terminated in 200 or 500. -/
theorem c4_subsequent_run_accepted
    (world1 world2 : String → List (String × String) → CmdOutcome)
    (pipelineName t : String) (steps1 steps2 : List PipelineStep)
    (ht : t ≠ "") :
    ((handleTrigger world1 pipelineName (some (hmacSha256Hex pipelineName t))
        steps1 (some t)).1.status = 200 ∨
     (handleTrigger world1 pipelineName (some (hmacSha256Hex pipelineName t))
        steps1 (some t)).1.status = 500) ∧
    ((handleTrigger world2 pipelineName (some (hmacSha256Hex pipelineName t))
        steps2 (some t)).1.status = 200 ∨
     (handleTrigger world2 pipelineName (some (hmacSha256Hex pipelineName t))
        steps2 (some t)).1.status = 500) ∧
    (handleTrigger world2 pipelineName (some (hmacSha256Hex pipelineName t))
        steps2 (some t)).2 = (executePipelineSteps world2 steps2).1 :=
  ⟨(handleTrigger_authorized_shape world1 pipelineName t steps1 ht).1,
   (handleTrigger_authorized_shape world2 pipelineName t steps2 ht).1,
   (handleTrigger_authorized_shape world2 pipelineName t steps2 ht).2⟩

/-- C4, witness: the first run faults mid-step, the second runs the same
step to success and is accepted. -/
theorem c4_subsequent_run_accepted_witness :
    ((handleTrigger (fun _ _ => CmdOutcome.fault "ReferenceError") "p"
        (some (hmacSha256Hex "p" "t"))
        [⟨"Build", "npm run build", [("NODE_ENV", "production")]⟩]
        (some "t")).1.status = 200 ∨
     (handleTrigger (fun _ _ => CmdOutcome.fault "ReferenceError") "p"
        (some (hmacSha256Hex "p" "t"))
        [⟨"Build", "npm run build", [("NODE_ENV", "production")]⟩]
        (some "t")).1.status = 500) ∧
    ((handleTrigger (fun _ _ => CmdOutcome.exited 0) "p"
        (some (hmacSha256Hex "p" "t"))
        [⟨"Build", "npm run build", [("NODE_ENV", "production")]⟩]
        (some "t")).1.status = 200 ∨
     (handleTrigger (fun _ _ => CmdOutcome.exited 0) "p"
        (some (hmacSha256Hex "p" "t"))
        [⟨"Build", "npm run build", [("NODE_ENV", "production")]⟩]
        (some "t")).1.status = 500) ∧
    (handleTrigger (fun _ _ => CmdOutcome.exited 0) "p"
        (some (hmacSha256Hex "p" "t"))
        [⟨"Build", "npm run build", [("NODE_ENV", "production")]⟩]
        (some "t")).2 =
      (executePipelineSteps (fun _ _ => CmdOutcome.exited 0)
        [⟨"Build", "npm run build", [("NODE_ENV", "production")]⟩]).1 :=
  c4_subsequent_run_accepted (fun _ _ => CmdOutcome.fault "ReferenceError")
    (fun _ _ => CmdOutcome.exited 0) "p" "t"
    [⟨"Build", "npm run build", [("NODE_ENV", "production")]⟩]
    [⟨"Build", "npm run build", [("NODE_ENV", "production")]⟩]
    (by decide)

/-- C6: when the trigger is authorized and every configured step exits 0,
the run spawns one record per configured step in insertion order, the run
resolves with no failure, and the controller answers 200 Pipeline executed
successfully. -/
theorem c6_all_steps_succeed
    (world : String → List (String × String) → CmdOutcome)
    (pipelineName t : String) (steps : List PipelineStep) (ht : t ≠ "")
    (hall : ∀ s ∈ steps,
      world s.command s.environmentVariables = CmdOutcome.exited 0) :
    executePipelineSteps world steps =
      (steps.map (fun s => ⟨s.name, s.command, s.environmentVariables⟩),
       Except.ok ()) ∧
    handleTrigger world pipelineName (some (hmacSha256Hex pipelineName t))
      steps (some t) =
      (⟨200, "Pipeline executed successfully"⟩,
       steps.map (fun s => ⟨s.name, s.command, s.environmentVariables⟩)) := by
  have hexec := executePipelineSteps_all_ok world steps hall
  exact ⟨hexec, handleTrigger_auth_ok world pipelineName t steps _ ht hexec⟩

/-- C6, witness at the two steps the source registers, both exiting 0. -/
theorem c6_all_steps_succeed_witness :
    executePipelineSteps (fun _ _ => CmdOutcome.exited 0)
      [⟨"Build", "npm run build", [("NODE_ENV", "production")]⟩,
       ⟨"Deploy", "docker deploy -p production",
        [("DEPLOYMENT_ENVIRONMENT", "production")]⟩] =
      ([⟨"Build", "npm run build", [("NODE_ENV", "production")]⟩,
        ⟨"Deploy", "docker deploy -p production",
         [("DEPLOYMENT_ENVIRONMENT", "production")]⟩],
       Except.ok ()) ∧
    handleTrigger (fun _ _ => CmdOutcome.exited 0) "p"
      (some (hmacSha256Hex "p" "t"))
      [⟨"Build", "npm run build", [("NODE_ENV", "production")]⟩,
       ⟨"Deploy", "docker deploy -p production",
        [("DEPLOYMENT_ENVIRONMENT", "production")]⟩]
      (some "t") =
      (⟨200, "Pipeline executed successfully"⟩,
       [⟨"Build", "npm run build", [("NODE_ENV", "production")]⟩,
        ⟨"Deploy", "docker deploy -p production",
         [("DEPLOYMENT_ENVIRONMENT", "production")]⟩]) :=
  c6_all_steps_succeed (fun _ _ => CmdOutcome.exited 0) "p" "t"
    [⟨"Build", "npm run build", [("NODE_ENV", "production")]⟩,
     ⟨"Deploy", "docker deploy -p production",
      [("DEPLOYMENT_ENVIRONMENT", "production")]⟩]
    (by decide) (by decide)

/-- C7, counterexample: the trigger is authorized, Build exits 0 and Deploy
exits 1; the response has status 500 and its body carries the exit code,
but the claim also requires the failing step name Deploy in the body, and
it is absent — the source message holds only the code. -/
theorem c7_counterexample :
    (handleTrigger
        (fun c _ => if c = "npm run build" then CmdOutcome.exited 0
                    else CmdOutcome.exited 1) "p"
        (some "6659310a4e9aee98f162aa06b03c0fa83303945f099363c8f27a98a563cad49e")
        [⟨"Build", "npm run build", []⟩, ⟨"Deploy", "docker deploy -p production", []⟩]
        (some "t")).1.status = 500 ∧
    strContains
      (handleTrigger
        (fun c _ => if c = "npm run build" then CmdOutcome.exited 0
                    else CmdOutcome.exited 1) "p"
        (some "6659310a4e9aee98f162aa06b03c0fa83303945f099363c8f27a98a563cad49e")
        [⟨"Build", "npm run build", []⟩, ⟨"Deploy", "docker deploy -p production", []⟩]
        (some "t")).1.body "Deploy" = false ∧
    strContains
      (handleTrigger
        (fun c _ => if c = "npm run build" then CmdOutcome.exited 0
                    else CmdOutcome.exited 1) "p"
        (some "6659310a4e9aee98f162aa06b03c0fa83303945f099363c8f27a98a563cad49e")
        [⟨"Build", "npm run build", []⟩, ⟨"Deploy", "docker deploy -p production", []⟩]
        (some "t")).1.body "1" = true := by
  decide

/-- A run whose leading steps exit 0 and whose next step exits nonzero
rejects there: the trace is the leading records then the failing record,
later steps are never spawned, and the rejection carries the code. -/
theorem executePipelineSteps_first_failure
    (world : String → List (String × String) → CmdOutcome)
    (B : PipelineStep) (rest : List PipelineStep) (cb : Nat)
    (hB : world B.command B.environmentVariables = CmdOutcome.exited cb)
    (hcb : cb ≠ 0) :
    ∀ pre : List PipelineStep,
      (∀ s ∈ pre, world s.command s.environmentVariables = CmdOutcome.exited 0) →
      executePipelineSteps world (pre ++ B :: rest) =
        (pre.map (fun s => ⟨s.name, s.command, s.environmentVariables⟩) ++
          [⟨B.name, B.command, B.environmentVariables⟩],
         Except.error ("Error: Command failed with code " ++ toString cb)) := by
  intro pre
  induction pre with
  | nil =>
      intro _
      cases cb with
      | zero => exact absurd rfl hcb
      | succ n => simp [executePipelineSteps, executeCommand, hB]
  | cons s ss ih =>
      intro h
      have hs : world s.command s.environmentVariables = CmdOutcome.exited 0 :=
        h s (List.mem_cons_self s ss)
      have hr := ih (fun x hx => h x (List.mem_cons_of_mem s hx))
      simp [executePipelineSteps, executeCommand, hs, hr]

/-- C7 (amended): whenever a step exits nonzero during an authorized run —
the failing step standing anywhere in the configured list, every step
before it exiting 0 — the controller answers 500 and the body is the
interpolated rejection, Error executing pipeline: Error: Command failed
with code followed by the exit code: it contains the exit code of the
failing step but not its name, which the source never writes into the
message. -/
theorem c7_failure_response
    (world : String → List (String × String) → CmdOutcome)
    (pipelineName t : String)
    (pre : List PipelineStep) (B : PipelineStep) (rest : List PipelineStep)
    (cb : Nat) (ht : t ≠ "")
    (hpre : ∀ s ∈ pre, world s.command s.environmentVariables = CmdOutcome.exited 0)
    (hB : world B.command B.environmentVariables = CmdOutcome.exited cb)
    (hcb : cb ≠ 0) :
    (handleTrigger world pipelineName (some (hmacSha256Hex pipelineName t))
        (pre ++ B :: rest) (some t)).1 =
      ⟨500, "Error executing pipeline: " ++
        ("Error: Command failed with code " ++ toString cb)⟩ ∧
    strContains
      (handleTrigger world pipelineName (some (hmacSha256Hex pipelineName t))
        (pre ++ B :: rest) (some t)).1.body (toString cb) = true := by
  have hexec := executePipelineSteps_first_failure world B rest cb hB hcb pre hpre
  rw [handleTrigger_auth_error world pipelineName t (pre ++ B :: rest) _ _ ht hexec]
  exact ⟨rfl, strContains_append_left _ _ _⟩

/-- C7 (amended), witness: Build exits 0, Deploy exits 1, authorized. -/
theorem c7_failure_response_witness :
    (handleTrigger
        (fun c _ => if c = "npm run build" then CmdOutcome.exited 0
                    else CmdOutcome.exited 1) "p"
        (some (hmacSha256Hex "p" "t"))
        [⟨"Build", "npm run build", []⟩, ⟨"Deploy", "docker deploy -p production", []⟩]
        (some "t")).1 =
      ⟨500, "Error executing pipeline: " ++
        ("Error: Command failed with code " ++ toString 1)⟩ ∧
    strContains
      (handleTrigger
        (fun c _ => if c = "npm run build" then CmdOutcome.exited 0
                    else CmdOutcome.exited 1) "p"
        (some (hmacSha256Hex "p" "t"))
        [⟨"Build", "npm run build", []⟩, ⟨"Deploy", "docker deploy -p production", []⟩]
        (some "t")).1.body (toString 1) = true :=
  c7_failure_response
    (fun c _ => if c = "npm run build" then CmdOutcome.exited 0
                else CmdOutcome.exited 1) "p" "t"
    [⟨"Build", "npm run build", []⟩] ⟨"Deploy", "docker deploy -p production", []⟩ [] 1
    (by decide) (by decide) (by decide) (by decide)

/-- C8: a missing or empty trigger is answered 401 Unauthorized with no
step spawned, and this holds for every digest function alike: the source
returns at line 47 before line 50 computes any digest, so the
authenticator is never consulted. -/
theorem c8_missing_trigger_short_circuit
    (hmac : String → String → String)
    (world : String → List (String × String) → CmdOutcome)
    (pipelineName : String) (envTriggerToken : Option String)
    (steps : List PipelineStep) :
    handleTriggerGen hmac world pipelineName envTriggerToken steps none =
      (⟨401, "Unauthorized"⟩, []) ∧
    handleTriggerGen hmac world pipelineName envTriggerToken steps (some "") =
      (⟨401, "Unauthorized"⟩, []) :=
  ⟨rfl, rfl⟩

/-- C9, counterexample: with a baseline environment holding PATH and the
Build step map holding only NODE_ENV, the env option the source hands exec
at line 77 has no PATH entry, while the merged environment the claim
describes keeps it — the baseline is replaced, not merged over. -/
theorem c9_counterexample :
    (execEnvOption [("NODE_ENV", "production")]).lookup "PATH" = none ∧
    (specMergedEnv [("PATH", "/usr/bin")] [("NODE_ENV", "production")]).lookup
      "PATH" = some "/usr/bin" ∧
    execEnvOption [("NODE_ENV", "production")] ≠
      specMergedEnv [("PATH", "/usr/bin")] [("NODE_ENV", "production")] := by
  decide

/-- C9 (amended): every spawned step receives as its whole child
environment exactly its own environmentVariables map — nothing of a
baseline environment and nothing of any other step is passed. -/
theorem c9_spawn_env_is_own_step_map
    (world : String → List (String × String) → CmdOutcome)
    (steps : List PipelineStep) :
    ∀ r ∈ (executePipelineSteps world steps).1,
      ∃ s ∈ steps,
        r = ⟨s.name, s.command, execEnvOption s.environmentVariables⟩ := by
  induction steps with
  | nil => intro r hr; simp [executePipelineSteps] at hr
  | cons s rest ih =>
      intro r hr
      cases h : executeCommand world s.command s.environmentVariables with
      | ok u =>
          simp only [executePipelineSteps, h] at hr
          rcases List.mem_cons.mp hr with h1 | h2
          · exact ⟨s, List.mem_cons_self s rest, h1⟩
          · obtain ⟨s2, hs2, he⟩ := ih r h2
            exact ⟨s2, List.mem_cons_of_mem s hs2, he⟩
      | error e =>
          simp only [executePipelineSteps, h] at hr
          rcases List.mem_cons.mp hr with h1 | h2
          · exact ⟨s, List.mem_cons_self s rest, h1⟩
          · exact absurd h2 (List.not_mem_nil r)

/-- C9 (amended), witness: the Build record carries exactly the Build map. -/
theorem c9_spawn_env_is_own_step_map_witness :
    ∃ s ∈ [PipelineStep.mk "Build" "npm run build" [("NODE_ENV", "production")],
           PipelineStep.mk "Deploy" "docker deploy -p production"
             [("DEPLOYMENT_ENVIRONMENT", "production")]],
      SpawnRecord.mk "Build" "npm run build" [("NODE_ENV", "production")] =
        ⟨s.name, s.command, execEnvOption s.environmentVariables⟩ :=
  c9_spawn_env_is_own_step_map (fun _ _ => CmdOutcome.exited 0)
    [PipelineStep.mk "Build" "npm run build" [("NODE_ENV", "production")],
     PipelineStep.mk "Deploy" "docker deploy -p production"
       [("DEPLOYMENT_ENVIRONMENT", "production")]]
    (SpawnRecord.mk "Build" "npm run build" [("NODE_ENV", "production")])
    (by decide)

/-- C10: for a nonempty trigger the handler authorizes exactly when the
TRIGGER_TOKEN environment variable holds the hex HMAC-SHA256 keyed by the
pipeline name over the trigger — authorized meaning the response is not a
401 — and with the variable unset every such request is answered 401
Unauthorized with nothing spawned. -/
theorem c10_authorization_iff
    (world : String → List (String × String) → CmdOutcome)
    (pipelineName t : String) (envTriggerToken : Option String)
    (steps : List PipelineStep) (ht : t ≠ "") :
    ((handleTrigger world pipelineName envTriggerToken steps
        (some t)).1.status ≠ 401 ↔
      envTriggerToken = some (hmacSha256Hex pipelineName t)) ∧
    handleTrigger world pipelineName none steps (some t) =
      (⟨401, "Unauthorized"⟩, []) := by
  constructor
  · by_cases htok : envTriggerToken = some (hmacSha256Hex pipelineName t)
    · subst htok
      have hsh := (handleTrigger_authorized_shape world pipelineName t steps ht).1
      refine ⟨fun _ => rfl, fun _ => ?_⟩
      rcases hsh with h | h <;> simp [h]
    · rw [handleTrigger_unauthorized world pipelineName t envTriggerToken steps ht htok]
      simp [htok]
  · exact handleTrigger_unauthorized world pipelineName t none steps ht (by simp)

/-- C10, witness: with TRIGGER_TOKEN holding the digest of trigger t keyed
by pipeline name p, the request is authorized. -/
theorem c10_authorization_iff_witness :
    ((handleTrigger (fun _ _ => CmdOutcome.exited 0) "p"
        (some "6659310a4e9aee98f162aa06b03c0fa83303945f099363c8f27a98a563cad49e")
        [] (some "t")).1.status ≠ 401 ↔
      (some "6659310a4e9aee98f162aa06b03c0fa83303945f099363c8f27a98a563cad49e" :
        Option String) = some (hmacSha256Hex "p" "t")) ∧
    handleTrigger (fun _ _ => CmdOutcome.exited 0) "p" none [] (some "t") =
      (⟨401, "Unauthorized"⟩, []) :=
  c10_authorization_iff (fun _ _ => CmdOutcome.exited 0) "p" "t"
    (some "6659310a4e9aee98f162aa06b03c0fa83303945f099363c8f27a98a563cad49e")
    [] (by decide)

end Pipeline
